import Mathlib

set_option maxHeartbeats 1000000
set_option maxRecDepth 100000

/-!
Verification of the Blinkt! LED chain driver
(`blinkt-adapter.js` / `index.js`): the protocol encoder that serializes
the state of 8 RGB channels onto a two-wire (data/clock) serial bus, and
the debounced update scheduler that coalesces bursts of property changes
into single flushes.
-/

/-- RGB color triple with 8-bit components, the parsed form of a
`#rrggbb` color string (the `Color` library object's `red()`, `green()`
and `blue()` accessors used by `sendDeviceProperties`). -/
structure Color where
  red : Nat
  green : Nat
  blue : Nat
deriving DecidableEq

/-- One Blinkt channel (one `BlinktDevice`): the cached values of its
three properties `on`, `color` (already parsed to RGB) and `level`. -/
structure Channel where
  «on» : Bool
  color : Color
  level : Nat
deriving DecidableEq

/-- The chain of 8 channels, index-addressed: device `blinkt-led-(i+1)`
holds channel `i`. -/
def ChainState : Type := Fin 8 → Channel

/-- One write to a GPIO output line: `setDAT b` is
`this.gpioDAT.writeSync(b)` and `setCLK b` is
`this.gpioCLK.writeSync(b)`. -/
inductive LineOp where
  | setDAT (b : Nat)
  | setCLK (b : Nat)
deriving DecidableEq

/-- Source `_write_bit(b)`: drive the data line to `b`, then pulse the clock
high and back low. -/
def writeBit (b : Nat) : List LineOp :=
  [LineOp.setDAT b, LineOp.setCLK 1, LineOp.setCLK 0]

/-- Source `_write_byte(byte)`: loop `x = 0..7`; each iteration writes the bit
`byte & 0b10000000 ? 1 : 0` of the accumulated shift `byte << x`, so bit
`7 - x` of the original byte goes out at step `x` (most significant bit
first). -/
def writeByte (byte : Nat) : List LineOp :=
  (List.range 8).flatMap (fun x => writeBit (if (byte <<< x) &&& 0x80 ≠ 0 then 1 else 0))

/-- Source `_sof()`: the start frame, 32 zero bits. -/
def sof : List LineOp := (List.range 32).flatMap (fun _ => writeBit 0)

/-- Source `_eof()`: the end frame, 36 zero bits. -/
def eof : List LineOp := (List.range 36).flatMap (fun _ => writeBit 0)

/-- Brightness quantization `Math.round((lvl * 15) / 100)`.  For a
nonnegative integer `lvl` the JavaScript expression equals
`⌊(lvl * 15 + 50) / 100⌋`, since `Math.round` rounds halves up and the
double-precision evaluation of `lvl * 15 / 100` is exact enough to
preserve the comparison with the nearest half at every integer level. -/
def quantize (lvl : Nat) : Nat := (lvl * 15 + 50) / 100

/-- The four bytes written by `sendDeviceProperties(lvl, col)`:
brightness `0xe0 | Math.round(lvl * 15 / 100)`, then blue, green, red. -/
def deviceBytes (lvl : Nat) (col : Color) : List Nat :=
  [0xE0 ||| quantize lvl, col.blue, col.green, col.red]

/-- Source `sendDeviceProperties(lvl, col)`: write the four channel-frame bytes
with `_write_byte`. -/
def sendDeviceProperties (lvl : Nat) (col : Color) : List LineOp :=
  (deviceBytes lvl col).flatMap writeByte

/-- Source `BlinktDevice.sendProperties()`: read `on`, `color` and `level`; if
the channel is off force the level to 0 (`if (!on) lvl = 0`); hand off
to the adapter's `sendDeviceProperties`. -/
def deviceSendProperties (c : Channel) : List LineOp :=
  sendDeviceProperties (if c.«on» then c.level else 0) c.color

/-- The bytes of one channel's frame: `deviceBytes` at the effective
level `on ? level : 0`. -/
def channelBytes (c : Channel) : List Nat :=
  deviceBytes (if c.«on» then c.level else 0) c.color

/-- Source `doSendProperties()`: start frame, then the 8 channel frames in
index order (`for x = 0..7`), then end frame. -/
def doSendProperties (s : ChainState) : List LineOp :=
  sof ++ (List.finRange 8).flatMap (fun i => deviceSendProperties (s i)) ++ eof

/-- The values driven onto the data line by a sequence of line
operations, in order. -/
def dataBits (ops : List LineOp) : List Nat :=
  ops.filterMap (fun o => match o with | LineOp.setDAT b => some b | _ => none)

/-- Recognizes a data-line write. -/
def isDAT : LineOp → Bool
  | LineOp.setDAT _ => true
  | _ => false

/-- Recognizes a clock-line rising write. -/
def isCLKhigh : LineOp → Bool
  | LineOp.setCLK 1 => true
  | _ => false

/-- Recognizes a clock-line falling write. -/
def isCLKlow : LineOp → Bool
  | LineOp.setCLK 0 => true
  | _ => false

/-- Modelled from the spec: the parsing of a `#rrggbb` color string into
an RGB triple is performed in the source by the external `Color` library
(`Color(this.properties.get('color').value)`), which is not part of this
repository; the spec states the core "parses the color string into an
RGB triple (standard 6-hex-digit form, `#` prefix)".  Value of one hex
digit. -/
def hexVal (c : Char) : Option Nat :=
  if ('0' ≤ c ∧ c ≤ '9') then some (c.toNat - '0'.toNat)
  else if ('a' ≤ c ∧ c ≤ 'f') then some (c.toNat - 'a'.toNat + 10)
  else if ('A' ≤ c ∧ c ≤ 'F') then some (c.toNat - 'A'.toNat + 10)
  else none

/-- Modelled from the spec: parse a standard 6-hex-digit `#rrggbb`
string into an RGB triple (see `hexVal`). -/
def parseColor (str : String) : Option Color :=
  match str.toList with
  | ['#', r1, r2, g1, g2, b1, b2] =>
    match hexVal r1, hexVal r2, hexVal g1, hexVal g2, hexVal b1, hexVal b2 with
    | some rh, some rl, some gh, some gl, some bh, some bl =>
        some { red := 16 * rh + rl, green := 16 * gh + gl, blue := 16 * bh + bl }
    | _, _, _, _, _, _ => none
  | _ => none

/-- C2: for every channel and flush, the four bytes emitted for the
channel are, in this order: the brightness byte `0xE0 ||| quantize lvl`
(0xE0 OR-ed with the quantized brightness), then the raw blue, green and
red component bytes; and on the wire those four bytes are transmitted as
four consecutive `_write_byte` runs in exactly that order. -/
theorem channelByteOrder (lvl : Nat) (col : Color) :
    deviceBytes lvl col = [0xE0 ||| quantize lvl, col.blue, col.green, col.red] ∧
    sendDeviceProperties lvl col =
      writeByte (0xE0 ||| quantize lvl) ++ writeByte col.blue ++
        writeByte col.green ++ writeByte col.red :=
  ⟨rfl, rfl⟩

/-- C3: whenever `on = false` the encoded brightness byte is `0xE0`
(quantized brightness 0) regardless of the stored level, while the blue,
green and red bytes still carry the stored color; in particular a
channel with `on = false`, color `#ffffff` and level 50 encodes as
`[0xE0, 0xFF, 0xFF, 0xFF]`. -/
theorem offChannelBrightness (col : Color) (lvl : Nat) :
    channelBytes { «on» := false, color := col, level := lvl } =
      [0xE0, col.blue, col.green, col.red] ∧
    (parseColor "#ffffff").map
        (fun w => channelBytes { «on» := false, color := w, level := 50 }) =
      some [0xE0, 0xFF, 0xFF, 0xFF] := by
  refine ⟨?_, rfl⟩
  show deviceBytes 0 col = [0xE0, col.blue, col.green, col.red]
  rfl

/-- C4: brightness quantization is `round(level * 15 / 100)`; it is
monotonic, and maps 0 to 0 and 100 to 15. -/
theorem quantizeMonotone (a b : Nat) (h : a ≤ b) :
    quantize a ≤ quantize b ∧ quantize 0 = 0 ∧ quantize 100 = 15 :=
  ⟨by unfold quantize; omega, rfl, rfl⟩

/-- Witness for `quantizeMonotone` at levels 3 and 97. -/
theorem quantizeMonotone_witness :
    (3 : Nat) ≤ 97 ∧
      (quantize 3 ≤ quantize 97 ∧ quantize 0 = 0 ∧ quantize 100 = 15) :=
  ⟨by decide, quantizeMonotone 3 97 (by decide)⟩

/-- C9: a channel with `on = true`, color `#00ff00` and level 100 emits
exactly the bytes `[0xEF, 0x00, 0xFF, 0x00]` (brightness `0xE0 ||| 15`,
blue 0, green 255, red 0), and on the wire those are the four
corresponding `_write_byte` runs. -/
theorem greenScenario :
    (parseColor "#00ff00").map
        (fun col => channelBytes { «on» := true, color := col, level := 100 }) =
      some [0xEF, 0x00, 0xFF, 0x00] ∧
    (parseColor "#00ff00").map
        (fun col => deviceSendProperties { «on» := true, color := col, level := 100 }) =
      some (([0xEF, 0x00, 0xFF, 0x00] : List Nat).flatMap writeByte) :=
  ⟨rfl, rfl⟩

/-- C8 counterexample: `sendDeviceProperties` performs no clamping of
the level.  At level 200 (outside 0-100) the quantized value is 30, the
emitted brightness byte is `0xFE`, whose low 5 bits are 30, not in the
range 0-15; clamping to 100 first would instead have produced `0xEF`. -/
theorem brightnessClampCounterexample :
    quantize 200 = 30 ∧
    channelBytes { «on» := true, color := ⟨255, 255, 255⟩, level := 200 } =
      [0xFE, 255, 255, 255] ∧
    0xFE % 32 = 30 ∧
    ¬(0xFE % 32 ≤ 15) ∧
    quantize (min 200 100) = 15 ∧
    (0xE0 ||| quantize (min 200 100)) = 0xEF := by
  decide

/-- Bounded form of the amended C8, settled by exhaustive evaluation. -/
theorem brightnessByteRangeAux :
    ∀ lvl : Nat, lvl < 101 →
      (0xE0 ||| quantize lvl) / 32 = 7 ∧
      (0xE0 ||| quantize lvl) % 32 = quantize lvl ∧
      quantize lvl ≤ 15 := by
  decide

/-- C8 amended: the code does not clamp out-of-range levels.  For every
channel whose stored level is in 0-100 the effective level is also in
0-100, so the emitted brightness byte has its top 3 bits equal to 111
and its low 5 bits (the quantized brightness) in the range 0-15; for
levels above 100 the low 5 bits can exceed 15 (see the
counterexample). -/
theorem brightnessByteRange (c : Channel) (h : c.level ≤ 100) :
    ∃ q, q = quantize (if c.«on» then c.level else 0) ∧ q ≤ 15 ∧
      channelBytes c = (0xE0 ||| q) :: [c.color.blue, c.color.green, c.color.red] ∧
      (0xE0 ||| q) / 32 = 7 ∧ (0xE0 ||| q) % 32 = q := by
  refine ⟨quantize (if c.«on» then c.level else 0), rfl, ?_, rfl, ?_, ?_⟩
  · exact (brightnessByteRangeAux _ (by split <;> omega)).2.2
  · exact (brightnessByteRangeAux _ (by split <;> omega)).1
  · exact (brightnessByteRangeAux _ (by split <;> omega)).2.1

/-- Witness for `brightnessByteRange` at a channel that is on with
level 100. -/
theorem brightnessByteRange_witness :
    ({ «on» := true, color := ⟨1, 2, 3⟩, level := 100 } : Channel).level ≤ 100 ∧
    ∃ q, q = quantize (if ({ «on» := true, color := ⟨1, 2, 3⟩, level := 100 } : Channel).«on»
          then ({ «on» := true, color := ⟨1, 2, 3⟩, level := 100 } : Channel).level else 0) ∧
      q ≤ 15 ∧
      channelBytes { «on» := true, color := ⟨1, 2, 3⟩, level := 100 } =
        (0xE0 ||| q) :: [3, 2, 1] ∧
      (0xE0 ||| q) / 32 = 7 ∧ (0xE0 ||| q) % 32 = q :=
  ⟨by decide, brightnessByteRange { «on» := true, color := ⟨1, 2, 3⟩, level := 100 } (by decide)⟩

/-- The 8 bits of a byte value, most significant first, as 0/1 values. -/
def msbFirst (byte : Nat) : List Nat :=
  [7, 6, 5, 4, 3, 2, 1, 0].map (fun i => if byte.testBit i then 1 else 0)

/-- Reassemble a bit sequence read most-significant-bit first. -/
def reassemble (bits : List Nat) : Nat :=
  bits.foldl (fun acc bit => 2 * acc + bit) 0

/-- Bounded form of C5, settled by exhaustive evaluation over all byte
values. -/
theorem writeByteMSBAux :
    ∀ byte : Nat, byte < 256 →
      writeByte byte = (msbFirst byte).flatMap writeBit ∧
      dataBits (writeByte byte) = msbFirst byte ∧
      reassemble (msbFirst byte) = byte := by
  decide

/-- C5: for every byte value 0-255, `_write_byte` emits exactly the 8
bits of the byte most-significant-bit first, each bit written by driving
the data line to the bit and then pulsing the clock high then low
exactly once (`_write_bit`); reassembling the emitted data bits
MSB-first recovers the byte. -/
theorem writeByteMSBFirst (byte : Nat) (h : byte < 256) :
    writeByte byte = (msbFirst byte).flatMap writeBit ∧
    dataBits (writeByte byte) = msbFirst byte ∧
    reassemble (dataBits (writeByte byte)) = byte := by
  obtain ⟨h1, h2, h3⟩ := writeByteMSBAux byte h
  exact ⟨h1, h2, by rw [h2, h3]⟩

/-- Witness for `writeByteMSBFirst` at byte `0xA5`. -/
theorem writeByteMSBFirst_witness :
    (0xA5 : Nat) < 256 ∧
    (writeByte 0xA5 = (msbFirst 0xA5).flatMap writeBit ∧
      dataBits (writeByte 0xA5) = msbFirst 0xA5 ∧
      reassemble (dataBits (writeByte 0xA5)) = 0xA5) :=
  ⟨by decide, writeByteMSBFirst 0xA5 (by decide)⟩

/-- C1: for every chain state, one flush (`doSendProperties`) emits, in
order, the start frame, the 8 channel frames in channel index order, and
the end frame; on the data line this is 32 zero bits, then the channel
bits, then 36 zero bits, so the emitted bit sequence always begins with
32 zero bits and ends with at least 36 zero bits (the data line is held
at 0 throughout both the start and the end frame). -/
theorem flushFrameStructure (s : ChainState) :
    doSendProperties s =
      sof ++ (List.finRange 8).flatMap (fun i => deviceSendProperties (s i)) ++ eof ∧
    dataBits (doSendProperties s) =
      List.replicate 32 0 ++
        dataBits ((List.finRange 8).flatMap (fun i => deviceSendProperties (s i))) ++
        List.replicate 36 0 ∧
    dataBits sof = List.replicate 32 0 ∧
    dataBits eof = List.replicate 36 0 :=
  ⟨rfl, rfl, rfl, rfl⟩

/-- C10: for every chain state, one flush performs exactly 324 data-line
writes and 324 clock pulses (each pulse one rising and one falling clock
write) — 32 start-frame bits, 8 × 32 channel bits and 36 end-frame
bits — for a total of 972 line operations, a constant independent of the
channel values. -/
theorem flushOpCount (s : ChainState) :
    (doSendProperties s).countP isDAT = 324 ∧
    (doSendProperties s).countP isCLKhigh = 324 ∧
    (doSendProperties s).countP isCLKlow = 324 ∧
    (doSendProperties s).length = 972 :=
  ⟨rfl, rfl, rfl, rfl⟩

/-- One mutation of a channel property arriving from the host: set `on`,
`color` (already parsed) or `level` of channel `i`. -/
inductive Mutation where
  | setOn (i : Fin 8) (v : Bool)
  | setColor (i : Fin 8) (v : Color)
  | setLevel (i : Fin 8) (v : Nat)
deriving DecidableEq

/-- Apply one mutation to the chain state (the property's
`setCachedValue`). -/
def applyMutation (s : ChainState) : Mutation → ChainState
  | Mutation.setOn i v => fun j => if j = i then { s j with «on» := v } else s j
  | Mutation.setColor i v => fun j => if j = i then { s j with color := v } else s j
  | Mutation.setLevel i v => fun j => if j = i then { s j with level := v } else s j

/-- The adapter's scheduling state: the chain of channel values, the
`pendingSend` flag, the number of timers currently scheduled and not yet
fired or cancelled, and the log of flushes performed so far. -/
structure AdapterSched where
  chain : ChainState
  pendingSend : Bool
  timers : Nat
  flushLog : List (List LineOp)

/-- Source `sendProperties()` (adapter): if `pendingSend` is set, `clearTimeout`
cancels the pending timer; then `pendingSend` is set and a fresh
quiescence timer is started. -/
def schedSendProperties (st : AdapterSched) : AdapterSched :=
  { st with pendingSend := true,
            timers := (if st.pendingSend then st.timers - 1 else st.timers) + 1 }

/-- One value-changing property write: the cached value is updated and
`notifyPropertyChanged` calls the adapter's `sendProperties()`. -/
def handleChange (st : AdapterSched) (m : Mutation) : AdapterSched :=
  schedSendProperties { st with chain := applyMutation st.chain m }

/-- A burst of value-changing property writes, in arrival order. -/
def handleChanges (st : AdapterSched) (ms : List Mutation) : AdapterSched :=
  ms.foldl handleChange st

/-- Expiry of the quiescence timer: `doSendProperties()` runs, clearing
`pendingSend` and performing exactly one flush of the current chain. -/
def timerFire (st : AdapterSched) : AdapterSched :=
  { st with pendingSend := false, timers := st.timers - 1,
            flushLog := st.flushLog ++ [doSendProperties st.chain] }

/-- An idle scheduler: no pending send, no timer, nothing flushed yet. -/
def initialSched (chain : ChainState) : AdapterSched :=
  { chain := chain, pendingSend := false, timers := 0, flushLog := [] }

/-- The channel defaults from the `BlinktDevice` constructor:
`on = false`, `color = '#ffffff'`, `level = 8`. -/
def defaultChannel : Channel :=
  { «on» := false, color := { red := 255, green := 255, blue := 255 }, level := 8 }

/-- The default chain: all 8 channels at their constructor defaults. -/
def defaultChain : ChainState := fun _ => defaultChannel

/-- Scheduler timer invariant: exactly one timer is scheduled while a
send is pending, none otherwise. -/
def TimerInv (st : AdapterSched) : Prop :=
  st.timers = if st.pendingSend then 1 else 0

theorem timerInv_handleChange (st : AdapterSched) (m : Mutation)
    (h : TimerInv st) : TimerInv (handleChange st m) := by
  unfold TimerInv at h ⊢
  unfold handleChange schedSendProperties
  cases hp : st.pendingSend <;> simp [hp] at h ⊢ <;> omega

theorem timerInv_handleChanges (ms : List Mutation) :
    ∀ st : AdapterSched, TimerInv st → TimerInv (handleChanges st ms) := by
  induction ms with
  | nil => intro st h; exact h
  | cons m ms ih =>
      intro st h
      exact ih (handleChange st m) (timerInv_handleChange st m h)

theorem handleChanges_pendingSend (ms : List Mutation) (m : Mutation) :
    ∀ st : AdapterSched, (handleChanges st (m :: ms)).pendingSend = true := by
  induction ms generalizing m with
  | nil => intro st; rfl
  | cons m2 ms ih => intro st; exact ih m2 (handleChange st m)

theorem handleChanges_chain (ms : List Mutation) :
    ∀ st : AdapterSched,
      (handleChanges st ms).chain = ms.foldl applyMutation st.chain := by
  induction ms with
  | nil => intro st; rfl
  | cons m ms ih => intro st; exact ih (handleChange st m)

theorem handleChanges_flushLog (ms : List Mutation) :
    ∀ st : AdapterSched, (handleChanges st ms).flushLog = st.flushLog := by
  induction ms with
  | nil => intro st; rfl
  | cons m ms ih => intro st; exact ih (handleChange st m)

/-- C6: for every burst of one or more channel mutations arriving within
one quiescence window, each change cancels and restarts the single
pending timer (never more than one timer is pending at any point of the
burst), no flush happens during the burst, and when the timer finally
expires exactly one flush is performed, of the chain state carrying all
the final values. -/
theorem debounceSingleFlush (chain : ChainState) (ms : List Mutation)
    (hne : ms ≠ []) :
    (handleChanges (initialSched chain) ms).pendingSend = true ∧
    (handleChanges (initialSched chain) ms).timers = 1 ∧
    (∀ n : Nat, (handleChanges (initialSched chain) (ms.take n)).timers ≤ 1) ∧
    (handleChanges (initialSched chain) ms).flushLog = [] ∧
    (handleChanges (initialSched chain) ms).chain = ms.foldl applyMutation chain ∧
    (timerFire (handleChanges (initialSched chain) ms)).flushLog =
      [doSendProperties (ms.foldl applyMutation chain)] ∧
    (timerFire (handleChanges (initialSched chain) ms)).timers = 0 ∧
    (timerFire (handleChanges (initialSched chain) ms)).pendingSend = false := by
  obtain ⟨m, ms2, rfl⟩ := List.exists_cons_of_ne_nil hne
  have hpend : (handleChanges (initialSched chain) (m :: ms2)).pendingSend = true :=
    handleChanges_pendingSend ms2 m (initialSched chain)
  have hinv : TimerInv (handleChanges (initialSched chain) (m :: ms2)) :=
    timerInv_handleChanges (m :: ms2) (initialSched chain) rfl
  have htimers : (handleChanges (initialSched chain) (m :: ms2)).timers = 1 := by
    unfold TimerInv at hinv; rw [hinv, hpend]; rfl
  have hchain := handleChanges_chain (m :: ms2) (initialSched chain)
  have hlog := handleChanges_flushLog (m :: ms2) (initialSched chain)
  refine ⟨hpend, htimers, ?_, hlog, hchain, ?_, ?_, rfl⟩
  · intro n
    have hinvn : TimerInv (handleChanges (initialSched chain) ((m :: ms2).take n)) :=
      timerInv_handleChanges ((m :: ms2).take n) (initialSched chain) rfl
    unfold TimerInv at hinvn
    rw [hinvn]
    split <;> omega
  · show (handleChanges (initialSched chain) (m :: ms2)).flushLog ++
      [doSendProperties (handleChanges (initialSched chain) (m :: ms2)).chain] = _
    rw [hlog, hchain]
    rfl
  · show (handleChanges (initialSched chain) (m :: ms2)).timers - 1 = 0
    omega

/-- Witness for `debounceSingleFlush`: a single mutation that switches
channel 0 on, applied to the default chain, yields one pending timer and
after expiry exactly one flush of the final state. -/
theorem debounceSingleFlush_witness :
    ([Mutation.setOn 0 true] : List Mutation) ≠ [] ∧
    ((handleChanges (initialSched defaultChain) [Mutation.setOn 0 true]).pendingSend = true ∧
      (handleChanges (initialSched defaultChain) [Mutation.setOn 0 true]).timers = 1 ∧
      (∀ n : Nat,
        (handleChanges (initialSched defaultChain)
          (([Mutation.setOn 0 true] : List Mutation).take n)).timers ≤ 1) ∧
      (handleChanges (initialSched defaultChain) [Mutation.setOn 0 true]).flushLog = [] ∧
      (handleChanges (initialSched defaultChain) [Mutation.setOn 0 true]).chain =
        ([Mutation.setOn 0 true] : List Mutation).foldl applyMutation defaultChain ∧
      (timerFire (handleChanges (initialSched defaultChain) [Mutation.setOn 0 true])).flushLog =
        [doSendProperties
          (([Mutation.setOn 0 true] : List Mutation).foldl applyMutation defaultChain)] ∧
      (timerFire (handleChanges (initialSched defaultChain) [Mutation.setOn 0 true])).timers = 0 ∧
      (timerFire (handleChanges (initialSched defaultChain) [Mutation.setOn 0 true])).pendingSend =
        false) :=
  ⟨by simp, debounceSingleFlush defaultChain [Mutation.setOn 0 true] (by simp)⟩

/-- A property value as stored by a `BlinktProperty`: a boolean for
`on`, a string for `color`, a number for `level`.  JavaScript strict
comparison `!==` on these primitive values is structural inequality. -/
inductive PropValue where
  | bv (x : Bool)
  | sv (x : String)
  | nv (x : Nat)
deriving DecidableEq

/-- The state a property write can observe and affect: the property's
cached value plus the adapter's scheduling fields. -/
structure PropState where
  value : PropValue
  pendingSend : Bool
  timers : Nat
deriving DecidableEq

/-- Source `BlinktProperty.setValue(value)`: compute
`changed = this.value !== value`, always update the cached value, and
only if `changed` raise one property-changed notification, which reaches
`notifyPropertyChanged` and calls the adapter's `sendProperties()`
(cancel any pending timer, set `pendingSend`, start a new timer).
Returns the new state and the number of notifications raised. -/
def setValue (st : PropState) (v : PropValue) : PropState × Nat :=
  let changed := st.value ≠ v
  let st1 : PropState := { st with value := v }
  if changed then
    ({ st1 with pendingSend := true,
                timers := (if st.pendingSend then st.timers - 1 else st.timers) + 1 }, 1)
  else (st1, 0)

/-- C7: a property write whose new value differs from the current value
raises exactly one property-changed notification and schedules a flush;
a write whose new value equals the current value raises zero
notifications, leaves the scheduler untouched and hence triggers zero
flushes — the state is exactly the one before the write. -/
theorem setValueChangeSignal (st : PropState) (v : PropValue) :
    setValue st v =
      if st.value = v then (st, 0)
      else ({ value := v, pendingSend := true,
              timers := (if st.pendingSend then st.timers - 1 else st.timers) + 1 }, 1) := by
  by_cases h : st.value = v
  · subst h
    simp [setValue]
  · simp [setValue, h]
